import Mathlib

/-!
# Shallow embedding of the marketplace checkout/settlement core (`src/main.py`)

Data model and operations translated from `main.py`:

* `Product` / `Purchase` records mirror the documents stored in the
  `product` and `purchase` Mongo collections (fields that no verified
  operation reads or writes — description, tags, preview media — are
  elided; `status`, `stats.views`, `stats.sales` are kept because
  `update_product`'s `$set` must be seen not to touch them).
* A `Store` is the pair of collections plus the id counter used by
  `create_document`.  Mongo `update_one` updates the first matching
  document, embedded as `updateFirst`; `find` with `{"$in": ids}` is a
  filter in collection order; `find_one` is `List.find?`.
* Prices are modelled as rationals (`float` in the source); quantities as
  integers (`int`, unbounded in Python and unconstrained by the
  `CheckoutItem` DTO); Python `int(x)` on the nonnegative prices at play
  is truncation, embedded as `pyInt`.
* External collaborators are oracle inputs: the Stripe session id is a
  parameter of `create_checkout`, and the outcome of
  `stripe.Webhook.construct_event`'s signature check is the boolean
  `sigOk` parameter of `stripe_webhook` (the HMAC itself lives in the
  Stripe library, outside the repository).
* Conversion of the `product_id` strings through `ObjectId` is elided:
  ids are already `ObjId` (`Nat`) in the model, so every id is
  well-formed; resolvability against the catalog is what the claims
  quantify over.
-/

abbrev ObjId := Nat

/-- A document of the `product` collection (created by `create_product`
with `status = "active"` and `stats = {views: 0, sales: 0}`). -/
structure Product where
  seller_id : String
  title : String
  price : ℚ
  currency : String
  status : String
  views : Nat
  sales : Nat
deriving Repr, DecidableEq

/-- The seller-editable fields of the `ProductIn` DTO that the claims
read (`$set` in `update_product` writes exactly the DTO fields, so it
never touches `status` or `stats`). -/
structure ProductIn where
  seller_id : String
  title : String
  price : ℚ
  currency : String
deriving Repr, DecidableEq

/-- `CheckoutItem` DTO: `product_id` plus an `int` quantity with no
lower bound (`quantity: int = 1`). -/
structure CheckoutItem where
  product_id : ObjId
  quantity : Int
deriving Repr, DecidableEq

/-- `CheckoutRequest` DTO. -/
structure CheckoutRequest where
  buyer_email : String
  items : List CheckoutItem
  provider : String
deriving Repr, DecidableEq

/-- One line-item snapshot embedded in a purchase document: exactly the
four fields written by `create_checkout` (no quantity is stored). -/
structure PurchaseItem where
  product_id : ObjId
  title : String
  price : ℚ
  seller_id : String
deriving Repr, DecidableEq

/-- A document of the `purchase` collection. -/
structure Purchase where
  buyer_email : String
  items : List PurchaseItem
  total_amount : ℚ
  currency : String
  provider : String
  payment_status : String
  transaction_id : Option String
deriving Repr, DecidableEq

/-- The persistent state the verified operations touch: the `product`
and `purchase` collections (documents keyed by their `_id`, in insertion
order) and the id source used by `create_document`. -/
structure Store where
  products : List (ObjId × Product)
  purchases : List (Nat × Purchase)
  nextPurchaseId : Nat
deriving Repr, DecidableEq

/-- Process configuration read at module load: `STRIPE_SECRET_KEY` and
`STRIPE_WEBHOOK_SECRET` (empty string when unset). -/
structure Config where
  stripeApiKey : String
  webhookSecret : String
deriving Repr, DecidableEq

/-- An `HTTPException(status_code, detail)`. -/
structure HTTPError where
  status : Nat
  detail : String
deriving Repr, DecidableEq

/-- Mongo `update_one`: apply `f` to the first element satisfying `p`,
leave the rest unchanged (no-op when nothing matches). -/
def updateFirst {α : Type} (p : α → Bool) (f : α → α) : List α → List α
  | [] => []
  | x :: xs => if p x then f x :: xs else x :: updateFirst p f xs

/-- Python `int(..)` on a rational: truncation toward zero. -/
def pyInt (q : ℚ) : Int :=
  if 0 ≤ q then ⌊q⌋ else ⌈q⌉

/-- The dict comprehension `{i.product_id: i.quantity for i in req.items}`:
later items overwrite earlier ones, so lookup finds the LAST item with
the given product id. -/
def idToQty (items : List CheckoutItem) (pid : ObjId) : Option Int :=
  (items.reverse.find? (fun i => i.product_id == pid)).map (·.quantity)

/-- `qty = id_to_qty.get(str(d["_id"])) or 1`: Python `or` replaces both
a missing key (`None`) and a falsy quantity (`0`) by `1`; any nonzero
quantity — negative included — is kept. -/
def effQty (items : List CheckoutItem) (pid : ObjId) : Int :=
  match idToQty items pid with
  | none => 1
  | some q => if q = 0 then 1 else q

/-- One entry of the `line_items` list handed to the payment provider:
currency, product name, the product id stashed in metadata,
`unit_amount = int(price * 100)`, and the effective quantity. -/
structure LineItem where
  currency : String
  name : String
  pid : ObjId
  unit_amount : Int
  quantity : Int
deriving Repr, DecidableEq

/-- `db.product.find({"_id": {"$in": product_ids}})`: the catalog
documents whose id occurs in the request, in collection order. -/
def findProducts (s : Store) (ids : List ObjId) : List (ObjId × Product) :=
  s.products.filter (fun pd => ids.contains pd.1)

/-- The loop of `create_checkout` that accumulates `total` and
`line_items` over the resolved documents. -/
def prepare (s : Store) (req : CheckoutRequest) :
    List (ObjId × Product) × ℚ × List LineItem :=
  let docs := findProducts s (req.items.map (·.product_id))
  let total := (docs.map (fun d => d.2.price * ((effQty req.items d.1 : Int) : ℚ))).sum
  let line_items := docs.map (fun d =>
    { currency := d.2.currency
      name := d.2.title
      pid := d.1
      unit_amount := pyInt (d.2.price * 100)
      quantity := effQty req.items d.1 : LineItem })
  (docs, total, line_items)

/-- What `create_checkout` returns: either the Stripe session (with the
line items that were sent to the provider) or the fallback demo
acknowledgment. -/
inductive CheckoutResult where
  | stripeSession (purchase_id : Nat) (session_id : String)
      (sent_line_items : List LineItem)
  | demo (provider : String) (purchase_id : Nat)
deriving Repr, DecidableEq

/-- `$inc {"stats.sales": 1}` on the first product with the given id. -/
def incSales (ps : List (ObjId × Product)) (pid : ObjId) : List (ObjId × Product) :=
  updateFirst (fun pd => pd.1 == pid) (fun pd => (pd.1, { pd.2 with sales := pd.2.sales + 1 })) ps

/-- `POST /api/checkout/create-session`.  `sessionId` stands for the id
the external Stripe API would mint for the hosted session. -/
def create_checkout (cfg : Config) (req : CheckoutRequest) (sessionId : String)
    (s : Store) : Except HTTPError (CheckoutResult × Store) :=
  let docs := (prepare s req).1
  let total := (prepare s req).2.1
  let line_items := (prepare s req).2.2
  if docs.isEmpty then
    .error ⟨400, "No valid items"⟩
  else
    let pid := s.nextPurchaseId
    let purchase : Purchase :=
      { buyer_email := req.buyer_email
        items := docs.map (fun d =>
          { product_id := d.1, title := d.2.title, price := d.2.price,
            seller_id := d.2.seller_id })
        total_amount := total
        currency := (match docs with | [] => "usd" | d :: _ => d.2.currency)
        provider := req.provider
        payment_status := "pending"
        transaction_id := none }
    let s1 : Store :=
      { s with purchases := s.purchases ++ [(pid, purchase)],
               nextPurchaseId := pid + 1 }
    if req.provider == "stripe" && cfg.stripeApiKey != "" then
      let withTxn := updateFirst (fun p => p.1 == pid)
        (fun p => (p.1, { p.2 with transaction_id := some sessionId })) s1.purchases
      .ok (.stripeSession pid sessionId line_items, { s1 with purchases := withTxn })
    else
      let settled := updateFirst (fun p => p.1 == pid)
        (fun p => (p.1, { p.2 with payment_status := "paid", transaction_id := some "demo_txn" })) s1.purchases
      let s2 : Store := { s1 with purchases := settled }
      let s3 : Store := { s2 with products := docs.foldl (fun ps d => incSales ps d.1) s2.products }
      .ok (.demo req.provider pid, s3)

/-- A webhook event as seen after `construct_event`: its `type` and the
session id `event["data"]["object"]["id"]`. -/
structure WebhookEvent where
  type : String
  sessionId : String
deriving Repr, DecidableEq

/-- `POST /api/stripe/webhook`.  `sigOk` is the verdict of
`stripe.Webhook.construct_event` checking the `stripe-signature` header
against `STRIPE_WEBHOOK_SECRET`; when it fails the route raises 400
before any database access. -/
def stripe_webhook (cfg : Config) (sigOk : Bool) (ev : WebhookEvent)
    (s : Store) : Except HTTPError (Bool × Store) :=
  if cfg.webhookSecret == "" then
    .ok (true, s)
  else if !sigOk then
    .error ⟨400, "Invalid signature"⟩
  else if ev.type == "checkout.session.completed" then
    match s.purchases.find? (fun p => p.2.transaction_id == some ev.sessionId) with
    | none => .ok (true, s)
    | some pu =>
      let marked := updateFirst (fun p => p.1 == pu.1)
        (fun p => (p.1, { p.2 with payment_status := "paid" })) s.purchases
      let s1 : Store := { s with purchases := marked }
      let s2 : Store :=
        { s1 with products := pu.2.items.foldl (fun ps it => incSales ps it.product_id) s1.products }
      .ok (true, s2)
  else
    .ok (true, s)

/-- `PUT /api/seller/products/{product_id}`: `$set` the DTO fields on
the matched product (keeping `status` and `stats`), 404 when no product
matches. -/
def update_product (pid : ObjId) (pin : ProductIn) (s : Store) :
    Except HTTPError (Bool × Store) :=
  if s.products.any (fun pd => pd.1 == pid) then
    let upd := updateFirst (fun pd => pd.1 == pid)
      (fun pd => (pd.1, { pd.2 with seller_id := pin.seller_id, title := pin.title, price := pin.price, currency := pin.currency })) s.products
    .ok (true, { s with products := upd })
  else
    .error ⟨404, "Product not found"⟩

/-- The store an HTTP request leaves behind: on an exception nothing had
been written (each route raises before its first write), so the store is
unchanged. -/
def checkoutFinal (cfg : Config) (req : CheckoutRequest) (sessionId : String)
    (s : Store) : Store :=
  match create_checkout cfg req sessionId s with
  | .ok (_, s') => s'
  | .error _ => s

/-- Final store of a webhook delivery (400 on a bad signature writes
nothing). -/
def webhookFinal (cfg : Config) (sigOk : Bool) (ev : WebhookEvent) (s : Store) : Store :=
  match stripe_webhook cfg sigOk ev s with
  | .ok (_, s') => s'
  | .error _ => s

/-- Final store of a product update (404 writes nothing). -/
def updateProductFinal (pid : ObjId) (pin : ProductIn) (s : Store) : Store :=
  match update_product pid pin s with
  | .ok (_, s') => s'
  | .error _ => s

/-- `stats.sales` of the product with the given id, read as
`find_one` would. -/
def lookupSales (s : Store) (pid : ObjId) : Option Nat :=
  (s.products.find? (fun pd => pd.1 == pid)).map (·.2.sales)

/-- `payment_status` of the purchase with the given id. -/
def lookupStatus (s : Store) (pid : Nat) : Option String :=
  (s.purchases.find? (fun p => p.1 == pid)).map (·.2.payment_status)

/-- `total_amount` of the purchase with the given id. -/
def lookupTotal (s : Store) (pid : Nat) : Option ℚ :=
  (s.purchases.find? (fun p => p.1 == pid)).map (·.2.total_amount)

/-- Modelled from the spec: `resolve` of §4.2, a point-in-time read of one
product; missing ids are simply absent. -/
def resolveOne (s : Store) (pid : ObjId) : Option Product :=
  (s.products.find? (fun pd => pd.1 == pid)).map (·.2)

/-- Modelled from the spec: the `total_amount` of §4.1/§8, "the sum over
resolved items of price × quantity", summed over exactly the resolvable
items of the cart. -/
def specTotal (s : Store) (items : List CheckoutItem) : ℚ :=
  ((items.filter (fun i => (resolveOne s i.product_id).isSome)).map
    (fun i => (match resolveOne s i.product_id with
               | some pr => pr.price
               | none => 0) * ((i.quantity : Int) : ℚ))).sum

theorem updateFirst_map_eq {α β : Type} (p : α → Bool) (f : α → α) (g : α → β)
    (hfg : ∀ x, g (f x) = g x) : ∀ l : List α, (updateFirst p f l).map g = l.map g
  | [] => rfl
  | x :: xs => by
    by_cases hx : p x
    · simp [updateFirst, hx, hfg]
    · simp [updateFirst, hx, updateFirst_map_eq p f g hfg xs]

theorem find?_updateFirst_self {α : Type} (p : α → Bool) (f : α → α)
    (hf : ∀ x, p x = true → p (f x) = true) :
    ∀ l : List α, (updateFirst p f l).find? p = (l.find? p).map f
  | [] => rfl
  | x :: xs => by
    by_cases hx : p x
    · simp [updateFirst, hx, List.find?_cons_of_pos, hf x hx]
    · simp [updateFirst, hx, List.find?_cons_of_neg, find?_updateFirst_self p f hf xs]

theorem find?_updateFirst_of_ne {α : Type} (p q : α → Bool) (f : α → α)
    (h : ∀ x, p x = true → (q x = false ∧ q (f x) = false)) :
    ∀ l : List α, (updateFirst p f l).find? q = l.find? q
  | [] => rfl
  | x :: xs => by
    by_cases hx : p x
    · have hq := h x hx
      simp [updateFirst, hx, hq.1, hq.2]
    · by_cases hqx : q x
      · simp [updateFirst, hx, hqx]
      · simp [updateFirst, hx, hqx, find?_updateFirst_of_ne p q f h xs]

theorem find?_key_eq_of_mem_nodup {α : Type} (key : α → Nat) :
    ∀ (l : List α), (l.map key).Nodup → ∀ x ∈ l, l.find? (fun y => key y == key x) = some x
  | [], _, x, hx => by cases hx
  | a :: l, h, x, hx => by
    rcases List.mem_cons.mp hx with rfl | hxl
    · simp
    · have hne : key a ≠ key x := by
        intro hk
        exact (List.nodup_cons.mp (by simpa using h)).1 (hk ▸ List.mem_map_of_mem key hxl)
      have : (key a == key x) = false := by simpa using hne
      simp only [List.find?_cons, this]
      exact find?_key_eq_of_mem_nodup key l (List.nodup_cons.mp (by simpa using h)).2 x hxl

theorem find?_incSales (ps : List (ObjId × Product)) (pid q : ObjId) :
    (incSales ps pid).find? (fun pd => pd.1 == q)
      = if q = pid
        then (ps.find? (fun pd => pd.1 == q)).map
              (fun pd => (pd.1, { pd.2 with sales := pd.2.sales + 1 }))
        else ps.find? (fun pd => pd.1 == q) := by
  by_cases hq : q = pid
  · subst hq
    rw [if_pos rfl, incSales]
    exact find?_updateFirst_self (fun pd => pd.1 == q)
      (fun pd => (pd.1, { pd.2 with sales := pd.2.sales + 1 })) (fun x hx => hx) ps
  · rw [if_neg hq, incSales]
    apply find?_updateFirst_of_ne
    intro x hx
    have hx1 : x.1 = pid := by simpa using hx
    have hpq : (pid == q) = false := beq_eq_false_iff_ne.mpr (fun hpe => hq hpe.symm)
    exact ⟨by simpa [hx1] using hpq, by simpa [hx1] using hpq⟩

theorem find?_foldl_incSales :
    ∀ (ids : List ObjId), ids.Nodup →
    ∀ (ps : List (ObjId × Product)) (q : ObjId),
      ((ids.foldl incSales ps).find? (fun pd => pd.1 == q)).map (·.2.sales)
        = (ps.find? (fun pd => pd.1 == q)).map
            (fun pd => pd.2.sales + if q ∈ ids then 1 else 0)
  | [], _, ps, q => by
    cases h : ps.find? (fun pd => pd.1 == q) <;> simp [h]
  | id :: ids, h, ps, q => by
    have hnd := List.nodup_cons.mp h
    simp only [List.foldl_cons]
    rw [find?_foldl_incSales ids hnd.2 (incSales ps id) q, find?_incSales]
    by_cases hq : q = id
    · subst hq
      rw [if_pos rfl]
      cases hfind : ps.find? (fun pd => pd.1 == q) <;>
        simp [hfind, hnd.1, List.mem_cons]
    · rw [if_neg hq]
      cases hfind : ps.find? (fun pd => pd.1 == q) <;>
        simp [hfind, List.mem_cons, hq]

/-- C5: a cart in which no product id resolves is rejected with the 400
"No valid items" error, and the store — in particular the purchase
ledger — is untouched. -/
theorem checkout_invalid_cart (cfg : Config) (req : CheckoutRequest) (sid : String)
    (s : Store) (h : ∀ pd ∈ s.products, pd.1 ∉ req.items.map (·.product_id)) :
    create_checkout cfg req sid s = .error ⟨400, "No valid items"⟩ ∧
      checkoutFinal cfg req sid s = s := by
  have hdocs : findProducts s (req.items.map (·.product_id)) = [] := by
    rw [findProducts, List.filter_eq_nil_iff]
    intro pd hpd
    simpa using h pd hpd
  constructor
  · simp [create_checkout, prepare, hdocs]
  · simp [checkoutFinal, create_checkout, prepare, hdocs]

/-- C5 witness at a concrete store and cart. -/
theorem checkout_invalid_cart_witness :
    create_checkout ⟨"", "wh"⟩ ⟨"b", [⟨9, 1⟩], "stripe"⟩ "sess"
        ⟨[(1, ⟨"s1", "A", 10, "usd", "active", 0, 0⟩)], [], 0⟩
      = .error ⟨400, "No valid items"⟩ ∧
    checkoutFinal ⟨"", "wh"⟩ ⟨"b", [⟨9, 1⟩], "stripe"⟩ "sess"
        ⟨[(1, ⟨"s1", "A", 10, "usd", "active", 0, 0⟩)], [], 0⟩
      = ⟨[(1, ⟨"s1", "A", 10, "usd", "active", 0, 0⟩)], [], 0⟩ :=
  checkout_invalid_cart _ _ _ _ (by decide)

/-- C6: with a configured signing secret, a delivery whose signature
check fails is rejected with a 400 before any lookup, and no record is
read or modified. -/
theorem webhook_bad_signature (cfg : Config) (ev : WebhookEvent) (s : Store)
    (h : cfg.webhookSecret ≠ "") :
    stripe_webhook cfg false ev s = .error ⟨400, "Invalid signature"⟩ ∧
      webhookFinal cfg false ev s = s := by
  have hb : (cfg.webhookSecret == "") = false := by simpa using h
  constructor
  · simp [stripe_webhook, hb]
  · simp [webhookFinal, stripe_webhook, hb]

/-- C6 witness. -/
theorem webhook_bad_signature_witness :
    stripe_webhook ⟨"sk", "wh"⟩ false ⟨"checkout.session.completed", "t"⟩ ⟨[], [], 0⟩
      = .error ⟨400, "Invalid signature"⟩ ∧
    webhookFinal ⟨"sk", "wh"⟩ false ⟨"checkout.session.completed", "t"⟩ ⟨[], [], 0⟩
      = ⟨[], [], 0⟩ :=
  webhook_bad_signature _ _ _ (by decide)

/-- C7: an authentic event whose type is not `checkout.session.completed`,
or whose session id matches no purchase's `transaction_id`, is
acknowledged with `{received: true}` and changes no state. -/
theorem webhook_ack_without_action (cfg : Config) (ev : WebhookEvent) (s : Store)
    (h : cfg.webhookSecret ≠ "")
    (hcase : ev.type ≠ "checkout.session.completed" ∨
      ∀ p ∈ s.purchases, p.2.transaction_id ≠ some ev.sessionId) :
    stripe_webhook cfg true ev s = .ok (true, s) := by
  have hb : (cfg.webhookSecret == "") = false := by simpa using h
  rcases hcase with hty | hnone
  · have hty' : (ev.type == "checkout.session.completed") = false := by simpa using hty
    simp [stripe_webhook, hb, hty']
  · have hfind : s.purchases.find? (fun p => p.2.transaction_id == some ev.sessionId) = none := by
      rw [List.find?_eq_none]
      intro p hp
      simpa using hnone p hp
    by_cases hty : ev.type = "checkout.session.completed" <;>
      simp [stripe_webhook, hb, hty, hfind]

/-- C7 witness: authentic completed event whose reference matches
nothing. -/
theorem webhook_ack_without_action_witness :
    stripe_webhook ⟨"sk", "wh"⟩ true ⟨"checkout.session.completed", "ghost"⟩
        ⟨[(1, ⟨"s1", "A", 10, "usd", "active", 0, 0⟩)], [], 0⟩
      = .ok (true, ⟨[(1, ⟨"s1", "A", 10, "usd", "active", 0, 0⟩)], [], 0⟩) :=
  webhook_ack_without_action _ _ _ (by decide) (Or.inr (by decide))

/-- C9: with an unconfigured (empty) webhook secret the endpoint
acknowledges every delivery — verified or not — without touching the
store, so no settlement side effect ever flows through the webhook. -/
theorem webhook_secret_unset (cfg : Config) (sigOk : Bool) (ev : WebhookEvent)
    (s : Store) (h : cfg.webhookSecret = "") :
    stripe_webhook cfg sigOk ev s = .ok (true, s) := by
  have hb : (cfg.webhookSecret == "") = true := by simpa using h
  simp [stripe_webhook, hb]

/-- C9 witness: even an unverifiable delivery of a completed event that
references an existing pending purchase is acknowledged unchanged. -/
theorem webhook_secret_unset_witness :
    stripe_webhook ⟨"sk", ""⟩ false ⟨"checkout.session.completed", "sess"⟩
        ⟨[], [(0, ⟨"b", [], 0, "usd", "stripe", "pending", some "sess"⟩)], 1⟩
      = .ok (true, ⟨[], [(0, ⟨"b", [], 0, "usd", "stripe", "pending", some "sess"⟩)], 1⟩) :=
  webhook_secret_unset _ _ _ _ rfl

/-- C8: purchase snapshots are immutable — `update_product` (whatever
fields it sets, price included) leaves the purchase ledger untouched,
and the webhook rewrites only `payment_status`, never a purchase's
line items or `total_amount`. -/
theorem purchase_snapshot_immutable :
    (∀ (pid : ObjId) (pin : ProductIn) (s : Store),
      (updateProductFinal pid pin s).purchases = s.purchases) ∧
    (∀ (cfg : Config) (sigOk : Bool) (ev : WebhookEvent) (s : Store),
      (webhookFinal cfg sigOk ev s).purchases.map (fun p => (p.1, p.2.items, p.2.total_amount))
        = s.purchases.map (fun p => (p.1, p.2.items, p.2.total_amount))) := by
  constructor
  · intro pid pin s
    by_cases hmem : s.products.any (fun pd => pd.1 == pid) <;>
      simp [updateProductFinal, update_product, hmem]
  · intro cfg sigOk ev s
    by_cases hsec : cfg.webhookSecret = ""
    · have hb : (cfg.webhookSecret == "") = true := by simpa using hsec
      simp [webhookFinal, stripe_webhook, hb]
    · have hb : (cfg.webhookSecret == "") = false := by simpa using hsec
      cases sigOk with
      | false => simp [webhookFinal, stripe_webhook, hb]
      | true =>
        by_cases hty : ev.type = "checkout.session.completed"
        · have hty2 : (ev.type == "checkout.session.completed") = true := by simpa using hty
          cases hfind : s.purchases.find? (fun p => p.2.transaction_id == some ev.sessionId) with
          | none => simp [webhookFinal, stripe_webhook, hb, hty2, hfind]
          | some pu =>
            simp only [webhookFinal, stripe_webhook, hb, hty2, hfind, Bool.not_true,
              Bool.false_eq_true, if_false, if_true]
            exact updateFirst_map_eq (fun p => p.1 == pu.1)
              (fun p => (p.1, { p.2 with payment_status := "paid" }))
              (fun p => (p.1, p.2.items, p.2.total_amount)) (fun x => rfl) s.purchases
        · have hty2 : (ev.type == "checkout.session.completed") = false := by simpa using hty
          simp [webhookFinal, stripe_webhook, hb, hty2]

/-- A catalog product used by the concrete scenarios (price 10.00). -/
def demoProduct : Product :=
  { seller_id := "s1", title := "A", price := 10, currency := "usd",
    status := "active", views := 0, sales := 0 }

/-- Configuration with a Stripe key and a webhook secret configured. -/
def liveConfig : Config := { stripeApiKey := "sk", webhookSecret := "wh" }

/-- Configuration with no Stripe key (forcing the fallback settle path)
but a webhook secret configured. -/
def demoConfig : Config := { stripeApiKey := "", webhookSecret := "wh" }

/-- Catalog with one product, empty purchase ledger. -/
def baseStore : Store :=
  { products := [(1, demoProduct)], purchases := [], nextPurchaseId := 0 }

/-- A cart ordering quantity 2 of product 1. -/
def demoReq : CheckoutRequest := ⟨"b@x", [⟨1, 2⟩], "stripe"⟩

/-- Store after checking the qty-2 cart out through the external-provider
path: a `pending` purchase with `transaction_id "sess"`. -/
def pendingStore : Store := checkoutFinal liveConfig demoReq "sess" baseStore

/-- Store after checking the qty-2 cart out through the fallback path:
the purchase settles to `paid` immediately. -/
def demoSettledStore : Store := checkoutFinal demoConfig demoReq "sess" baseStore

/-- The authentic completed event for session "sess". -/
def completedEv : WebhookEvent := ⟨"checkout.session.completed", "sess"⟩

/-- C1 (evaluating the code at the failing input): delivering the same
authentic `checkout.session.completed` event twice is NOT idempotent.
The first delivery settles the purchase and bumps the product's sales
counter to 1; the second delivery is not a no-op — it bumps sales again
to 2. -/
theorem webhook_double_delivery_double_applies :
    lookupSales (webhookFinal liveConfig true completedEv pendingStore) 1 = some 1 ∧
    lookupStatus (webhookFinal liveConfig true completedEv pendingStore) 0 = some "paid" ∧
    lookupSales (webhookFinal liveConfig true completedEv
      (webhookFinal liveConfig true completedEv pendingStore)) 1 = some 2 ∧
    lookupSales (webhookFinal liveConfig true completedEv
        (webhookFinal liveConfig true completedEv pendingStore)) 1
      ≠ lookupSales (webhookFinal liveConfig true completedEv pendingStore) 1 := by
  decide

/-- A purchase already `refunded`, with an external reference on file. -/
def refundedPurchase : Purchase :=
  { buyer_email := "b", items := [⟨1, "A", 10, "s1"⟩], total_amount := 20,
    currency := "usd", provider := "stripe", payment_status := "refunded",
    transaction_id := some "t" }

/-- A store holding the refunded purchase. -/
def refundedStore : Store :=
  { products := [(1, demoProduct)], purchases := [(0, refundedPurchase)],
    nextPurchaseId := 1 }

/-- C3 (evaluating the code at the failing input): a late authentic
completed event for a `refunded` purchase is not rejected — the webhook
overwrites the status back to `paid`, performing the forbidden
`refunded → paid` transition (and re-increments sales). -/
theorem webhook_refunded_to_paid :
    lookupStatus refundedStore 0 = some "refunded" ∧
    lookupStatus (webhookFinal liveConfig true
      ⟨"checkout.session.completed", "t"⟩ refundedStore) 0 = some "paid" := by
  decide

/-- C2 counterexample: a fallback checkout of quantity 2 settles the
purchase (`total_amount = 20`, status `paid`) but increments the
product's sales by 1, not by the quantity 2. -/
theorem fallback_sales_increment_ignores_quantity :
    lookupSales baseStore 1 = some 0 ∧
    lookupTotal demoSettledStore 0 = some 20 ∧
    lookupStatus demoSettledStore 0 = some "paid" ∧
    lookupSales demoSettledStore 1 = some 1 ∧
    lookupSales demoSettledStore 1 ≠ some 2 := by
  refine ⟨by decide, ?_, by decide, by decide, by decide⟩
  norm_num [demoSettledStore, checkoutFinal, create_checkout, prepare, findProducts,
    demoReq, baseStore, demoProduct, demoConfig, effQty, idToQty, incSales,
    updateFirst, lookupTotal]

theorem foldl_incSales_fst :
    ∀ (docs : List (ObjId × Product)) (ps : List (ObjId × Product)),
      docs.foldl (fun acc d => incSales acc d.1) ps = (docs.map Prod.fst).foldl incSales ps
  | [], _ => rfl
  | d :: docs, ps => by
    simp only [List.foldl_cons, List.map_cons]
    exact foldl_incSales_fst docs (incSales ps d.1)

theorem foldl_incSales_pid :
    ∀ (its : List PurchaseItem) (ps : List (ObjId × Product)),
      its.foldl (fun acc it => incSales acc it.product_id) ps
        = (its.map (·.product_id)).foldl incSales ps
  | [], _ => rfl
  | it :: its, ps => by
    simp only [List.foldl_cons, List.map_cons]
    exact foldl_incSales_pid its (incSales ps it.product_id)

/-- C2 amended: when a purchase reaches `paid` — via the fallback settle
path or via an authentic completed provider event — each referenced
product's `stats.sales` counter is incremented by exactly 1 per settled
line item referencing it (the settled ids being pairwise distinct),
regardless of the requested quantity; products not referenced keep their
counter. -/
theorem sales_increment_one_per_line_item :
    (∀ (cfg : Config) (req : CheckoutRequest) (sid : String) (s : Store)
       (r : CheckoutResult) (s' : Store),
       (req.provider == "stripe" && cfg.stripeApiKey != "") = false →
       ((prepare s req).1.map Prod.fst).Nodup →
       create_checkout cfg req sid s = .ok (r, s') →
       ∀ q : ObjId, lookupSales s' q
         = (lookupSales s q).map
             (fun n => n + if q ∈ (prepare s req).1.map Prod.fst then 1 else 0)) ∧
    (∀ (cfg : Config) (ev : WebhookEvent) (s : Store) (pu : Nat × Purchase)
       (b : Bool) (s' : Store),
       cfg.webhookSecret ≠ "" →
       ev.type = "checkout.session.completed" →
       s.purchases.find? (fun p => p.2.transaction_id == some ev.sessionId) = some pu →
       (pu.2.items.map (·.product_id)).Nodup →
       stripe_webhook cfg true ev s = .ok (b, s') →
       ∀ q : ObjId, lookupSales s' q
         = (lookupSales s q).map
             (fun n => n + if q ∈ pu.2.items.map (·.product_id) then 1 else 0)) := by
  constructor
  · intro cfg req sid s r s' hbranch hnd hok q
    simp only [create_checkout] at hok
    by_cases hempty : (prepare s req).1.isEmpty
    · simp [hempty] at hok
    · have hempty2 : (prepare s req).1.isEmpty = false := by simpa using hempty
      simp only [hempty2, Bool.false_eq_true, if_false, hbranch, Except.ok.injEq,
        Prod.mk.injEq] at hok
      obtain ⟨hr, hs⟩ := hok
      subst hs
      simp only [lookupSales]
      rw [foldl_incSales_fst, find?_foldl_incSales _ hnd, Option.map_map]
      rfl
  · intro cfg ev s pu b s' hsec hty hfind hnd hok q
    have hb : (cfg.webhookSecret == "") = false := by simpa using hsec
    have hty2 : (ev.type == "checkout.session.completed") = true := by simpa using hty
    simp only [stripe_webhook, hb, hty2, hfind, Bool.not_true, Bool.false_eq_true,
      if_false, if_true, Except.ok.injEq, Prod.mk.injEq] at hok
    obtain ⟨hb2, hs⟩ := hok
    subst hs
    simp only [lookupSales]
    rw [foldl_incSales_pid, find?_foldl_incSales _ hnd, Option.map_map]
    rfl

/-- C2 amended witness: the fallback checkout of the qty-2 cart
increments product 1's sales from 0 by exactly 1. -/
theorem sales_increment_one_per_line_item_witness :
    lookupSales demoSettledStore 1
      = (lookupSales baseStore 1).map
          (fun n => n + if 1 ∈ (prepare baseStore demoReq).1.map Prod.fst then 1 else 0) :=
  sales_increment_one_per_line_item.1 demoConfig demoReq "sess" baseStore
    (.demo "stripe" 0) demoSettledStore (by decide) (by decide)
    (by norm_num [create_checkout, prepare, findProducts, demoReq, baseStore,
      demoProduct, demoConfig, effQty, idToQty, incSales, updateFirst,
      demoSettledStore, checkoutFinal]) 1

/-- The duplicate-id cart: product 1 requested twice, qty 2 then qty 3. -/
def dupReq : CheckoutRequest := ⟨"b@x", [⟨1, 2⟩, ⟨1, 3⟩], "paypal"⟩

/-- C4 counterexample: with a duplicated product id in the cart (qty 2
then qty 3, price 10) the persisted `total_amount` is 30 — the quantity
dict is last-wins and each resolved product is charged once — whereas
the sum of snapshotted price × quantity over the resolvable items is
10·2 + 10·3 = 50. -/
theorem total_amount_duplicate_ids :
    lookupTotal (checkoutFinal demoConfig dupReq "sess" baseStore) 0 = some 30 ∧
    specTotal baseStore dupReq.items = 50 ∧
    (30 : ℚ) ≠ 50 := by
  refine ⟨?_, ?_, by norm_num⟩
  · norm_num [checkoutFinal, create_checkout, prepare, findProducts, dupReq, baseStore,
      demoProduct, demoConfig, effQty, idToQty, incSales, updateFirst, lookupTotal]
  · norm_num [specTotal, resolveOne, baseStore, demoProduct, dupReq]

theorem map_fst_filter {β : Type} (p : Nat → Bool) :
    ∀ l : List (Nat × β), (l.filter (fun x => p x.1)).map Prod.fst = (l.map Prod.fst).filter p
  | [] => rfl
  | x :: l => by
    by_cases hx : p x.1 <;> simp [List.filter_cons, hx, map_fst_filter p l]

theorem map_pid_filter (p : Nat → Bool) :
    ∀ l : List CheckoutItem,
      (l.filter (fun i => p i.product_id)).map (·.product_id)
        = (l.map (·.product_id)).filter p
  | [] => rfl
  | i :: l => by
    by_cases hx : p i.product_id <;> simp [List.filter_cons, hx, map_pid_filter p l]

theorem contains_eq_true_iff (l : List Nat) (a : Nat) : l.contains a = true ↔ a ∈ l := by
  rw [List.contains_iff_exists_mem_beq]
  constructor
  · rintro ⟨x, hx, hax⟩
    rw [eq_of_beq hax]
    exact hx
  · intro h
    exact ⟨a, h, by simp⟩

theorem resolveOne_isSome_iff (s : Store) (a : ObjId) :
    (resolveOne s a).isSome = true ↔ a ∈ s.products.map Prod.fst := by
  simp only [resolveOne, Option.isSome_map', List.find?_isSome, List.mem_map, beq_iff_eq]

theorem resolveOne_eq_of_mem (s : Store) (hcat : (s.products.map Prod.fst).Nodup)
    (d : ObjId × Product) (hd : d ∈ s.products) : resolveOne s d.1 = some d.2 := by
  rw [resolveOne, find?_key_eq_of_mem_nodup Prod.fst s.products hcat d hd]
  rfl

theorem effQty_eq_quantity (items : List CheckoutItem)
    (hcart : (items.map (·.product_id)).Nodup)
    (i : CheckoutItem) (hi : i ∈ items) (hq : i.quantity ≠ 0) :
    effQty items i.product_id = i.quantity := by
  have hrev : items.reverse.find? (fun y => y.product_id == i.product_id) = some i := by
    refine find?_key_eq_of_mem_nodup (fun y => y.product_id) items.reverse ?_ i
      (List.mem_reverse.mpr hi)
    rw [List.map_reverse]
    exact List.nodup_reverse.mpr hcart
  simp [effQty, idToQty, hrev, hq]

theorem prepare_total_eq_specTotal (s : Store) (req : CheckoutRequest)
    (hcat : (s.products.map Prod.fst).Nodup)
    (hcart : (req.items.map (·.product_id)).Nodup)
    (hqty : ∀ i ∈ req.items, 1 ≤ i.quantity) :
    (prepare s req).2.1 = specTotal s req.items := by
  classical
  let f : ObjId → ℚ := fun a =>
    (match resolveOne s a with | some pr => pr.price | none => 0)
      * ((effQty req.items a : Int) : ℚ)
  let L : List ObjId :=
    (s.products.map Prod.fst).filter (fun a => (req.items.map (·.product_id)).contains a)
  let R : List ObjId :=
    (req.items.map (·.product_id)).filter (fun a => (resolveOne s a).isSome)
  have hL : (prepare s req).2.1 = (L.map f).sum := by
    show ((findProducts s (req.items.map (·.product_id))).map
        (fun d => d.2.price * ((effQty req.items d.1 : Int) : ℚ))).sum = (L.map f).sum
    rw [show L = (s.products.filter
        (fun x => (req.items.map (·.product_id)).contains x.1)).map Prod.fst from
      (map_fst_filter _ s.products).symm]
    rw [List.map_map, findProducts]
    refine congrArg List.sum (List.map_congr_left ?_)
    intro d hd
    have hd2 : d ∈ s.products := (List.mem_filter.mp hd).1
    show d.2.price * ((effQty req.items d.1 : Int) : ℚ) = f d.1
    show d.2.price * ((effQty req.items d.1 : Int) : ℚ)
      = (match resolveOne s d.1 with | some pr => pr.price | none => 0)
          * ((effQty req.items d.1 : Int) : ℚ)
    rw [resolveOne_eq_of_mem s hcat d hd2]
  have hR : specTotal s req.items = (R.map f).sum := by
    show ((req.items.filter (fun i => (resolveOne s i.product_id).isSome)).map
        (fun i => (match resolveOne s i.product_id with
                   | some pr => pr.price | none => 0) * ((i.quantity : Int) : ℚ))).sum
      = (R.map f).sum
    rw [show R = (req.items.filter
        (fun i => (resolveOne s i.product_id).isSome)).map (·.product_id) from
      (map_pid_filter _ req.items).symm]
    rw [List.map_map]
    refine congrArg List.sum (List.map_congr_left ?_)
    intro i hi
    have hi2 : i ∈ req.items := (List.mem_filter.mp hi).1
    have hq0 : i.quantity ≠ 0 := by
      have := hqty i hi2
      omega
    show (match resolveOne s i.product_id with
          | some pr => pr.price | none => 0) * ((i.quantity : Int) : ℚ) = f i.product_id
    show (match resolveOne s i.product_id with
          | some pr => pr.price | none => 0) * ((i.quantity : Int) : ℚ)
      = (match resolveOne s i.product_id with
         | some pr => pr.price | none => 0) * ((effQty req.items i.product_id : Int) : ℚ)
    rw [effQty_eq_quantity req.items hcart i hi2 hq0]
  have hLnd : L.Nodup := hcat.filter _
  have hRnd : R.Nodup := hcart.filter _
  have hperm : L.Perm R := by
    refine List.perm_of_nodup_nodup_toFinset_eq hLnd hRnd ?_
    ext a
    simp only [List.mem_toFinset, L, R, List.mem_filter]
    constructor
    · rintro ⟨hmemcat, hcont⟩
      exact ⟨(contains_eq_true_iff _ _).mp hcont, (resolveOne_isSome_iff s a).mpr hmemcat⟩
    · rintro ⟨hmemcart, hsome⟩
      exact ⟨(resolveOne_isSome_iff s a).mp hsome, (contains_eq_true_iff _ _).mpr hmemcart⟩
  rw [hL, hR]
  exact (hperm.map f).sum_eq

theorem find?_total_updateFirst_append (ps : List (Nat × Purchase)) (pid : Nat)
    (pu : Purchase) (g : Nat × Purchase → Nat × Purchase)
    (hg1 : ∀ x, (g x).1 = x.1)
    (hg2 : ∀ x, (g x).2.total_amount = x.2.total_amount)
    (hfresh : ∀ p ∈ ps, p.1 ≠ pid) :
    ((updateFirst (fun p => p.1 == pid) g (ps ++ [(pid, pu)])).find?
        (fun p => p.1 == pid)).map (·.2.total_amount) = some pu.total_amount := by
  rw [find?_updateFirst_self (fun p => p.1 == pid) g
    (fun x hx => by show ((g x).1 == pid) = true; rw [hg1]; exact hx)]
  rw [List.find?_append]
  have h1 : ps.find? (fun p => p.1 == pid) = none := by
    rw [List.find?_eq_none]
    intro p hp
    simpa using hfresh p hp
  rw [h1]
  simp [hg2]

/-- C4 amended: for every cart whose product ids are pairwise distinct,
whose quantities are all ≥ 1, and in which at least one id resolves
against the catalog (with unique catalog keys and a fresh purchase id),
checkout succeeds and persists a Purchase whose `total_amount` equals
the sum of snapshotted unit price × requested quantity over exactly the
resolvable items; unresolvable ids are dropped and contribute nothing.
With a duplicated product id the quantity dict is last-wins and the
product is charged once, so distinctness cannot be dropped. -/
theorem checkout_total_amount (cfg : Config) (req : CheckoutRequest) (sid : String)
    (s : Store)
    (hcat : (s.products.map Prod.fst).Nodup)
    (hcart : (req.items.map (·.product_id)).Nodup)
    (hqty : ∀ i ∈ req.items, 1 ≤ i.quantity)
    (hres : ∃ i ∈ req.items, ∃ pr, (i.product_id, pr) ∈ s.products)
    (hfresh : ∀ p ∈ s.purchases, p.1 ≠ s.nextPurchaseId) :
    (∃ rs, create_checkout cfg req sid s = .ok rs) ∧
      lookupTotal (checkoutFinal cfg req sid s) s.nextPurchaseId
        = some (specTotal s req.items) := by
  have hne : (prepare s req).1.isEmpty = false := by
    obtain ⟨i, hi, pr, hpr⟩ := hres
    have hmem : (i.product_id, pr) ∈ (prepare s req).1 := by
      show (i.product_id, pr) ∈ findProducts s (req.items.map (·.product_id))
      rw [findProducts]
      refine List.mem_filter.mpr ⟨hpr, ?_⟩
      exact (contains_eq_true_iff _ _).mpr (List.mem_map_of_mem (fun i => i.product_id) hi)
    rw [List.isEmpty_eq_false]
    intro h
    rw [h] at hmem
    cases hmem
  constructor
  · simp only [create_checkout, hne, Bool.false_eq_true, if_false]
    cases hbr : (req.provider == "stripe" && cfg.stripeApiKey != "") <;> simp
  · rw [← prepare_total_eq_specTotal s req hcat hcart hqty]
    simp only [checkoutFinal, create_checkout, hne, Bool.false_eq_true, if_false]
    cases hbr : (req.provider == "stripe" && cfg.stripeApiKey != "")
    · simp only [Bool.false_eq_true, if_false, lookupTotal]
      exact find?_total_updateFirst_append s.purchases s.nextPurchaseId _ _
        (fun x => rfl) (fun x => rfl) hfresh
    · simp only [if_true, lookupTotal]
      exact find?_total_updateFirst_append s.purchases s.nextPurchaseId _ _
        (fun x => rfl) (fun x => rfl) hfresh

/-- C4 amended witness: the qty-2 cart against the one-product catalog. -/
theorem checkout_total_amount_witness :
    (∃ rs, create_checkout liveConfig demoReq "sess" baseStore = .ok rs) ∧
      lookupTotal (checkoutFinal liveConfig demoReq "sess" baseStore) 0
        = some (specTotal baseStore demoReq.items) :=
  checkout_total_amount liveConfig demoReq "sess" baseStore (by decide) (by decide)
    (by decide) ⟨⟨1, 2⟩, by decide, demoProduct, by decide⟩ (by decide)

theorem filter_key_singleton {β : Type} :
    ∀ (l : List (Nat × β)), (l.map Prod.fst).Nodup → ∀ (k : Nat) (v : β), (k, v) ∈ l →
      l.filter (fun x => [k].contains x.1) = [(k, v)]
  | [], _, k, v, hm => by cases hm
  | x :: l, h, k, v, hm => by
    have h2 : (x.1 :: l.map Prod.fst).Nodup := by
      rw [List.map_cons] at h
      exact h
    have hnd := List.nodup_cons.mp h2
    rcases List.mem_cons.mp hm with rfl | hm2
    · have hknot : ∀ y ∈ l, ¬ ((fun x : Nat × β => [k].contains x.1) y = true) := by
        intro y hy hcon
        have hyk : y.1 = k := by simpa using hcon
        have hmm : y.1 ∈ l.map Prod.fst := List.mem_map_of_mem Prod.fst hy
        rw [hyk] at hmm
        exact hnd.1 hmm
      have hself : ((fun x : Nat × β => [k].contains x.1) (k, v)) = true := by simp
      rw [List.filter_cons_of_pos (p := fun x : Nat × β => [k].contains x.1) hself,
        List.filter_eq_nil_iff.mpr hknot]
    · have hxk : ¬ ((fun y : Nat × β => [k].contains y.1) x = true) := by
        have hne2 : x.1 ≠ k := by
          intro he
          have hmm : x.1 ∈ l.map Prod.fst := by
            rw [he]
            exact List.mem_map_of_mem Prod.fst hm2
          exact hnd.1 hmm
        simpa using hne2
      rw [List.filter_cons_of_neg (p := fun y : Nat × β => [k].contains y.1) hxk]
      exact filter_key_singleton l hnd.2 k v hm2

/-- C10: a cart item with quantity 0 — accepted by the `CheckoutItem`
DTO, which puts no lower bound on `quantity` — is treated as quantity 1:
`0 or 1` evaluates to `1` in Python, so the item contributes unit
price × 1 to the purchase's `total_amount` and quantity 1 to the
provider line items, rather than being rejected or contributing zero. -/
theorem quantity_zero_treated_as_one (cfg : Config) (email prov sid : String)
    (pid : ObjId) (prod : Product) (s : Store)
    (hcat : (s.products.map Prod.fst).Nodup)
    (hmem : (pid, prod) ∈ s.products)
    (hfresh : ∀ p ∈ s.purchases, p.1 ≠ s.nextPurchaseId) :
    (prepare s ⟨email, [⟨pid, 0⟩], prov⟩).2.2
        = [⟨prod.currency, prod.title, pid, pyInt (prod.price * 100), 1⟩] ∧
      lookupTotal (checkoutFinal cfg ⟨email, [⟨pid, 0⟩], prov⟩ sid s) s.nextPurchaseId
        = some (prod.price * 1) := by
  have hdocs : findProducts s [pid] = [(pid, prod)] := by
    rw [findProducts]
    exact filter_key_singleton s.products hcat pid prod hmem
  have heff : effQty [⟨pid, 0⟩] pid = 1 := by
    simp [effQty, idToQty]
  have hprep1 : (prepare s ⟨email, [⟨pid, 0⟩], prov⟩).1 = [(pid, prod)] := by
    simp only [prepare, List.map_cons, List.map_nil]
    exact hdocs
  have htot : (prepare s ⟨email, [⟨pid, 0⟩], prov⟩).2.1 = prod.price * 1 := by
    simp only [prepare, List.map_cons, List.map_nil, hdocs, heff, List.sum_cons,
      List.sum_nil, Int.cast_one, add_zero]
  constructor
  · simp only [prepare, List.map_cons, List.map_nil, hdocs, heff]
  · rw [← htot]
    have hne : (prepare s ⟨email, [⟨pid, 0⟩], prov⟩).1.isEmpty = false := by
      rw [hprep1]
      rfl
    simp only [checkoutFinal, create_checkout, hne, Bool.false_eq_true, if_false]
    cases hbr : (prov == "stripe" && cfg.stripeApiKey != "")
    · simp only [Bool.false_eq_true, if_false, lookupTotal]
      exact find?_total_updateFirst_append s.purchases s.nextPurchaseId _ _
        (fun x => rfl) (fun x => rfl) hfresh
    · simp only [if_true, lookupTotal]
      exact find?_total_updateFirst_append s.purchases s.nextPurchaseId _ _
        (fun x => rfl) (fun x => rfl) hfresh

/-- C10 witness at the one-product catalog. -/
theorem quantity_zero_treated_as_one_witness :
    (prepare baseStore ⟨"b@x", [⟨1, 0⟩], "paypal"⟩).2.2
        = [⟨demoProduct.currency, demoProduct.title, 1, pyInt (demoProduct.price * 100), 1⟩] ∧
      lookupTotal (checkoutFinal demoConfig ⟨"b@x", [⟨1, 0⟩], "paypal"⟩ "sess" baseStore) 0
        = some (demoProduct.price * 1) :=
  quantity_zero_treated_as_one demoConfig "b@x" "paypal" "sess" 1 demoProduct baseStore
    (by decide) (by decide) (by decide)
